import Mathlib

/-!
Verification of the logging / progress-bar / prompt core of
`templatescript.py` against its specification.

The Python source is shallowly embedded: machine integers become `Int`/`Nat`,
strings become Lean `String` (lists of characters, ASCII case mapping),
the mutable state of the `logging` module becomes an explicit record that is
threaded through the operations, and fallible operations return an error
value together with the (possibly mutated) state, so that "raised before any
mutation" is an actual statement about the returned state.
-/

set_option autoImplicit false

namespace TemplateScript

/-- Python `str.lower()` restricted to ASCII, as a plain map over the
character list (Python's `lower` on the ASCII strings this program uses). -/
def strLower (s : String) : String := ⟨s.data.map Char.toLower⟩

/-- Python `str.upper()` restricted to ASCII. -/
def strUpper (s : String) : String := ⟨s.data.map Char.toUpper⟩

/-- The decimal digit character for `n % 10`. -/
def digitChar (n : Nat) : Char :=
  match n % 10 with
  | 0 => '0' | 1 => '1' | 2 => '2' | 3 => '3' | 4 => '4'
  | 5 => '5' | 6 => '6' | 7 => '7' | 8 => '8' | _ => '9'

/-- Decimal digits of `n`, most significant first, driven by fuel
(`fuel = n + 1` always suffices since `n / 10 < n` for `n ≥ 10`). -/
def natChars : Nat → Nat → List Char
  | 0, _ => []
  | fuel + 1, n => if n < 10 then [digitChar n] else natChars fuel (n / 10) ++ [digitChar n]

/-- Decimal rendering of a natural number (Python `str` on a nonnegative int). -/
def natStr (n : Nat) : String := ⟨natChars (n + 1) n⟩

/-- Exactly `d` decimal digits of `n`, zero-padded on the left
(the fractional part of a fixed-point rendering). -/
def natDigitsPadded : Nat → Nat → List Char
  | 0, _ => []
  | d + 1, n => natDigitsPadded d (n / 10) ++ [digitChar n]

/-- Round `a / b` to the nearest integer, ties to even (the rounding used by
Python's fixed-point string formatting). Requires `b > 0` to be meaningful. -/
def roundHalfEvenDiv (a b : Nat) : Nat :=
  let q := a / b
  let r := a % b
  if 2 * r < b then q
  else if b < 2 * r then q + 1
  else if q % 2 = 0 then q else q + 1

/-- Python `("{0:." + str(d) + "f}").format(num / den)` for nonnegative
operands: fixed-point rendering of `num / den` with exactly `d` fractional
digits (no decimal point at all when `d = 0`, as in Python). The source
computes the quotient in IEEE double precision; the model uses the exact
rational value, which agrees except on values whose double approximation
rounds across a decimal tie. -/
def formatFixedNat (num den d : Nat) : String :=
  let scaled := roundHalfEvenDiv (num * 10 ^ d) den
  if d = 0 then natStr scaled
  else natStr (scaled / 10 ^ d) ++ "." ++ ⟨natDigitsPadded d (scaled % 10 ^ d)⟩

/-- Number of characters after the last `'.'` of a string (its count of
fractional digits, for a fixed-point numeral). -/
def fracDigitCount (s : String) : Nat :=
  (s.data.reverse.takeWhile (fun c => c != '.')).length

/-! ## The severity registry (`logging` module state) -/

/-- Registration failure, named as in the specification's error taxonomy.
The source raises `AttributeError` with a message naming the collider:
the level-name check gives `DuplicateLevelName`, the two accessor checks
give `DuplicateAccessorName`. -/
inductive RegError where
  | DuplicateLevelName
  | DuplicateAccessorName
  deriving DecidableEq, Repr

/-- One output sink attached to a logger: `logging.FileHandler` on a path, or
the colorlog terminal `StreamHandler`. -/
inductive HandlerKind where
  | file (path : List String)
  | stream
  deriving DecidableEq, Repr

/-- A logging handler: its kind, its own threshold (never set by this program,
so it stays at the `NOTSET` value 0), and the records it has emitted — each
entry is one formatted output line. -/
structure Handler where
  kind : HandlerKind
  level : Int
  output : List (Int × String)
  deriving DecidableEq, Repr

/-- A named logger: its threshold and its attached handlers. -/
structure Logger where
  level : Int
  handlers : List Handler
  deriving DecidableEq, Repr

/-- The process-wide state of the `logging` module: the severity registry
`_nameToLevel`, the module-level attributes (only their names matter for
`hasattr`), the attributes of the logger class, and the manager's table of
named loggers. -/
structure LoggingState where
  nameToLevel : List (String × Int)
  moduleAttrs : List String
  loggerClassMethods : List String
  loggers : List (String × Logger)
  deriving DecidableEq, Repr

/-- The built-in contents of `logging._nameToLevel` (CPython 3). -/
def builtinNameToLevel : List (String × Int) :=
  [("CRITICAL", 50), ("FATAL", 50), ("ERROR", 40), ("WARN", 30),
   ("WARNING", 30), ("INFO", 20), ("DEBUG", 10), ("NOTSET", 0)]

/-- The module-level attributes of `logging` relevant to `hasattr` checks:
the built-in level names and the public functions and classes. -/
def builtinModuleAttrs : List String :=
  ["CRITICAL", "FATAL", "ERROR", "WARN", "WARNING", "INFO", "DEBUG", "NOTSET",
   "critical", "fatal", "error", "exception", "warning", "warn", "info",
   "debug", "log", "disable", "shutdown", "addLevelName", "getLevelName",
   "getLogger", "getLoggerClass", "setLoggerClass", "basicConfig",
   "captureWarnings", "makeLogRecord", "Logger", "Handler", "Formatter",
   "Filter", "LogRecord", "FileHandler", "StreamHandler", "NullHandler",
   "BASIC_FORMAT", "raiseExceptions", "lastResort", "root", "handlers",
   "config"]

/-- The attributes of the `logging.Logger` class relevant to `hasattr`. -/
def builtinLoggerMethods : List String :=
  ["setLevel", "debug", "info", "warning", "warn", "error", "exception",
   "critical", "fatal", "log", "findCaller", "makeRecord", "handle",
   "addHandler", "removeHandler", "hasHandlers", "callHandlers",
   "getEffectiveLevel", "isEnabledFor", "getChild", "addFilter",
   "removeFilter", "filter", "name", "level", "parent", "propagate",
   "handlers", "disabled", "manager", "root"]

/-- The state of the `logging` module at interpreter start. -/
def initialLoggingState : LoggingState :=
  { nameToLevel := builtinNameToLevel,
    moduleAttrs := builtinModuleAttrs,
    loggerClassMethods := builtinLoggerMethods,
    loggers := [] }

/-- The names currently registered in the severity registry. -/
def registeredNames (st : LoggingState) : List String :=
  st.nameToLevel.map Prod.fst

/-- Lines 93-94 of the source: `if not methodName: methodName = levelName.lower()`.
Python `not` is also true for the empty string. -/
def methodNameOf (levelName : String) : Option String → String
  | none => strLower levelName
  | some "" => strLower levelName
  | some m => m

/-- `addLoggingLevel(levelName, levelNum, methodName)` from the source.
All three `hasattr` checks run before any mutation, so an error leaves the
state exactly as it was. On success, `logging.addLevelName` performs a dict
assignment on `_nameToLevel`, and the three `setattr` calls install the
module-level level attribute, the logger-class method and the module-level
function. -/
def addLoggingLevel (st : LoggingState) (levelName : String) (levelNum : Int)
    (methodName? : Option String) : Except RegError Unit × LoggingState :=
  let methodName := methodNameOf levelName methodName?
  if levelName ∈ st.moduleAttrs then (.error .DuplicateLevelName, st)
  else if methodName ∈ st.moduleAttrs then (.error .DuplicateAccessorName, st)
  else if methodName ∈ st.loggerClassMethods then (.error .DuplicateAccessorName, st)
  else
    (.ok (),
     { st with
       nameToLevel :=
         (levelName, levelNum) :: st.nameToLevel.filter (fun p => p.1 != levelName),
       moduleAttrs := levelName :: methodName :: st.moduleAttrs,
       loggerClassMethods := methodName :: st.loggerClassMethods })

/-- Well-formedness of the module state: every registered severity name is
also a module attribute. True initially (the built-in names are module
attributes) and preserved by `addLoggingLevel`. -/
def Wf (st : LoggingState) : Prop :=
  ∀ n ∈ registeredNames st, n ∈ st.moduleAttrs

instance (st : LoggingState) : Decidable (Wf st) := by
  unfold Wf; infer_instance

/-! ## Association-list operations on the manager's logger table -/

/-- Look up a key in an association list (Python dict read). -/
def lookupPair : List (String × Logger) → String → Option Logger
  | [], _ => none
  | (k, v) :: t, n => if k = n then some v else lookupPair t n

/-- Apply `f` to the value stored under a key (mutation of the one shared
logger object held in the manager's dict). -/
def updatePair (f : Logger → Logger) : List (String × Logger) → String → List (String × Logger)
  | [], _ => []
  | (k, v) :: t, n =>
    if k = n then (k, f v) :: updatePair f t n else (k, v) :: updatePair f t n

/-- Look up a logger by name in the module state. -/
def lookupLogger (st : LoggingState) (n : String) : Option Logger :=
  lookupPair st.loggers n

/-- Mutate the logger stored under a name. -/
def updateLogger (st : LoggingState) (n : String) (f : Logger → Logger) : LoggingState :=
  { st with loggers := updatePair f st.loggers n }

/-- `logging.getLogger(name)`: return the existing logger of that name, or
create one (threshold `NOTSET = 0`, no handlers) and register it. -/
def ensureLogger (st : LoggingState) (n : String) : LoggingState :=
  match lookupPair st.loggers n with
  | some _ => st
  | none => { st with loggers := st.loggers ++ [(n, { level := 0, handlers := [] })] }

/-- Exact-string lookup in `_nameToLevel` (what `logging._checkLevel` does for
a string argument, e.g. inside `Logger.setLevel`). -/
def lookupLevel (st : LoggingState) (s : String) : Option Int :=
  match st.nameToLevel.find? (fun p => p.1 == s) with
  | some p => some p.2
  | none => none

/-! ## Filesystem model for the logger factory -/

/-- A filesystem path, as its list of components relative to the working
directory (`[]` is the working directory itself). -/
abbrev Path : Type := List String

/-- A filesystem: the set of existing directories and the set of existing
regular files. -/
structure Fs where
  dirs : List Path
  files : List Path
  deriving DecidableEq

/-- Errors an `os` filesystem call can raise here. -/
inductive FsError where
  | notFound
  | alreadyExists
  | isDir
  deriving DecidableEq, Repr

/-- `os.mkdir`: single-level directory creation. Path resolution fails first
when the parent does not exist (`FileNotFoundError`); an existing target
gives `FileExistsError`. -/
def mkdir (fs : Fs) (d : Path) : Except FsError Fs :=
  if d.dropLast ∉ fs.dirs then .error .notFound
  else if d ∈ fs.dirs ∨ d ∈ fs.files then .error .alreadyExists
  else .ok { fs with dirs := d :: fs.dirs }

/-- Opening a path for append (what `logging.FileHandler` does): the parent
must exist, the path must not be a directory; an existing file is kept
(append mode never truncates), a missing one is created. -/
def openAppend (fs : Fs) (p : Path) : Except FsError Fs :=
  if p.dropLast ∉ fs.dirs then .error .notFound
  else if p ∈ fs.dirs then .error .isDir
  else if p ∈ fs.files then .ok fs
  else .ok { fs with files := p :: fs.files }

/-- Lines 132-138 of the source: compute the log-file path and create the
log directory when needed. `log_dir = none` (Python `None`) keeps the bare
filename; a `log_dir` that is not an existing directory is created with
`os.mkdir`; an existing directory is reused. -/
def resolveLogPath (fs : Fs) (log_dir : Option Path) (lf : String) :
    Except FsError (Path × Fs) :=
  match log_dir with
  | none => .ok ([lf], fs)
  | some d =>
    if d ∉ fs.dirs then
      match mkdir fs d with
      | .error e => .error e
      | .ok fs' => .ok (d ++ [lf], fs')
    else .ok (d ++ [lf], fs)

/-- Failure of `create_logger`, named as in the specification where it has a
name there: `InvalidLevelName` is the `AttributeError` from the level-name
check, `DirectoryCreationError` the `OSError` out of `os.mkdir`,
`FileOpenError` an `OSError` opening the log file, `SetLevelValueError` the
`ValueError` that `Logger.setLevel` raises on an unknown exact level string. -/
inductive CreateError where
  | InvalidLevelName
  | DirectoryCreationError (e : FsError)
  | FileOpenError (e : FsError)
  | SetLevelValueError
  deriving DecidableEq, Repr

/-- `create_logger(log_dir, log_file, logger_name, log_level)` from the
source, with the wall clock passed in as the already-formatted timestamp
string `now`. Mirrors the source order: level-name check, filename
derivation, `getLogger`, directory handling, `FileHandler` construction
(which opens the file), formatter/terminal-handler construction (pure),
`setLevel`, then the two `addHandler` calls. Returns the name under which
the (shared) logger is registered. -/
def create_logger (st : LoggingState) (fs : Fs) (now : String)
    (log_dir : Option Path) (log_file : Option String)
    (logger_name : String) (log_level : String) :
    Except CreateError String × LoggingState × Fs :=
  if strUpper log_level ∉ registeredNames st then
    (.error .InvalidLevelName, st, fs)
  else
    let lf := match log_file with
      | none => now ++ "_" ++ "AppName" ++ ".log"
      | some f => f
    let st1 := ensureLogger st logger_name
    match resolveLogPath fs log_dir lf with
    | .error e => (.error (.DirectoryCreationError e), st1, fs)
    | .ok (p, fs1) =>
      match openAppend fs1 p with
      | .error e => (.error (.FileOpenError e), st1, fs1)
      | .ok fs2 =>
        let fileHandler : Handler := { kind := .file p, level := 0, output := [] }
        let termHandler : Handler := { kind := .stream, level := 0, output := [] }
        match lookupLevel st1 log_level with
        | none => (.error .SetLevelValueError, st1, fs2)
        | some r =>
          let st2 := updateLogger st1 logger_name (fun l => { l with level := r })
          let st3 := updateLogger st2 logger_name
            (fun l => { l with handlers := l.handlers ++ [fileHandler] })
          let st4 := updateLogger st3 logger_name
            (fun l => { l with handlers := l.handlers ++ [termHandler] })
          (.ok logger_name, st4, fs2)

/-! ## Emitting a record (`logForLevel` / `Logger._log` / `callHandlers`) -/

/-- `Logger.getEffectiveLevel`: the logger's own level if set, else the walk
up to the root logger, whose level is `WARNING = 30`. -/
def effectiveLevel (l : Logger) : Int :=
  if l.level ≠ 0 then l.level else 30

/-- `Logger.isEnabledFor(level)`: false when `manager.disable (= 0) >= level`,
else the comparison against the effective level. -/
def isEnabledFor (l : Logger) (levelNum : Int) : Bool :=
  if levelNum ≤ 0 then false else decide (effectiveLevel l ≤ levelNum)

/-- `callHandlers` on one handler: emit one formatted line when the record's
level passes the handler's own threshold. -/
def emitHandler (levelNum : Int) (msg : String) (h : Handler) : Handler :=
  if h.level ≤ levelNum then { h with output := h.output ++ [(levelNum, msg)] } else h

/-- The `logForLevel` convenience method installed by `addLoggingLevel`
(identical in shape to the built-in `Logger.info` etc.): if the logger is
enabled for the rank, hand the record to every attached handler. The root
logger has no handlers in this program, so propagation adds nothing. -/
def logRecord (st : LoggingState) (n : String) (levelNum : Int) (msg : String) :
    LoggingState :=
  match lookupLogger st n with
  | none => st
  | some l =>
    if isEnabledFor l levelNum then
      updateLogger st n
        (fun l' => { l' with handlers := l'.handlers.map (emitHandler levelNum msg) })
    else st

/-! ## Progress bar (`print_progressbar`) -/

/-- Line 194 of the source: `filledLength = int(length * iteration // total)`
(floor division on nonnegative integers, which is `Nat` division). -/
def filledLength (iteration total length : Nat) : Nat :=
  length * iteration / total

/-- Line 195: `bar = fill * filledLength + '-' * (length - filledLength)`. -/
def progressBar (iteration total length : Nat) (fill : Char) : String :=
  ⟨List.replicate (filledLength iteration total length) fill ++
   List.replicate (length - filledLength iteration total length) '-'⟩

/-- Line 193: the percent string
`("{0:." + str(decimals) + "f}").format(100 * (iteration / float(total)))`.
The float pipeline is modelled on the exact rational `100 * iteration / total`. -/
def percentStr (iteration total decimals : Nat) : String :=
  formatFixedNat (100 * iteration) total decimals

/-- The f-string `f'\r{prefix} |{bar}| {percent}% {suffix}'` of line 196,
after line 191-192 replaced an empty `prefix` argument by seventeen spaces. -/
def progressLine (iteration total : Nat) (pfx sfx : String)
    (decimals length : Nat) (fill : Char) : String :=
  let pfx := if pfx.data.length < 1 then "                 " else pfx
  "\r" ++ pfx ++ " |" ++ progressBar iteration total length fill ++ "| " ++
    percentStr iteration total decimals ++ "% " ++ sfx

/-- `print_progressbar` from the source, as the text it writes to the
terminal: `print(f'\r...', end=printEnd)` writes the line then `printEnd`,
and the bare `print()` of line 199 appends a newline when
`iteration == total`. -/
def print_progressbar (iteration total : Nat) (pfx sfx : String)
    (decimals length : Nat) (fill : Char) (printEnd : String) : String :=
  progressLine iteration total pfx sfx decimals length fill ++ printEnd ++
    (if iteration = total then "\n" else "")

/-! ## Confirmation prompt (`query_yes_no`) -/

/-- The `valid` dict of the source:
`{"yes": True, "y": True, "ye": True, "no": False, "n": False}`. -/
def valid (s : String) : Option Bool :=
  if s = "yes" then some true
  else if s = "y" then some true
  else if s = "ye" then some true
  else if s = "no" then some false
  else if s = "n" then some false
  else none

/-- The usage hint written on invalid input (the two adjacent Python string
literals concatenate). -/
def hintMsg : String := "Please respond with 'yes' or 'no' (or 'y' or 'n').\n"

/-- The prompt decoration chosen from the default answer (empty for the
invalid-default case, which never reaches the loop). -/
def promptOfD : Option String → String
  | none => " [y/n] "
  | some "yes" => " [Y/n] "
  | some "no" => " [y/N] "
  | some _ => ""

/-- The value `valid[default]` that an empty input returns, for the two
valid non-`None` defaults. -/
def defaultAns : Option String → Option Bool
  | some "yes" => some true
  | some "no" => some false
  | _ => none

/-- The `while True` loop of `query_yes_no`, run against a finite list of
input lines. Each iteration writes `question + prompt` (here `qp`), reads a
line, lowercases it, and either returns (empty line with a default present;
or a key of `valid`) or writes the usage hint and loops. Returns the answer
(`none` when the input list ran out, i.e. the loop is still blocked), the
list of strings written to stdout, and the unread input lines. -/
def qLoop (qp : String) (dflt : Option Bool) :
    List String → Option Bool × List String × List String
  | [] => (none, [qp], [])
  | line :: rest =>
    let choice := strLower line
    if dflt.isSome ∧ choice = "" then (dflt, [qp], rest)
    else
      match valid choice with
      | some b => (some b, [qp], rest)
      | none =>
        let r := qLoop qp dflt rest
        (r.1, qp :: hintMsg :: r.2.1, r.2.2)

/-- Python `ValueError` from the default-argument validation. -/
inductive PromptError where
  | invalidDefault
  deriving DecidableEq, Repr

/-- `query_yes_no(question, default)` from the source, run against a finite
list of input lines: validate `default` (raising before anything is written
or read), then loop. The result is the answer (`.ok none` when input ran
out with no valid answer yet), the strings written to stdout, and the
unread input lines. -/
def query_yes_no (question : String) (d : Option String) (inputs : List String) :
    Except PromptError (Option Bool) × List String × List String :=
  match d with
  | none =>
    let r := qLoop (question ++ " [y/n] ") none inputs
    (.ok r.1, r.2.1, r.2.2)
  | some "yes" =>
    let r := qLoop (question ++ " [Y/n] ") (some true) inputs
    (.ok r.1, r.2.1, r.2.2)
  | some "no" =>
    let r := qLoop (question ++ " [y/N] ") (some false) inputs
    (.ok r.1, r.2.1, r.2.2)
  | some _ => (.error .invalidDefault, [], inputs)

/-! ## Supporting lemmas -/

theorem lookupPair_updatePair (f : Logger → Logger) (l : List (String × Logger))
    (n : String) : lookupPair (updatePair f l n) n = (lookupPair l n).map f := by
  induction l with
  | nil => rfl
  | cons hd t ih =>
    obtain ⟨k, v⟩ := hd
    by_cases hk : k = n <;> simp [lookupPair, updatePair, hk, ih]

theorem lookupPair_append_fresh (l : List (String × Logger)) (n : String)
    (v : Logger) (h : lookupPair l n = none) :
    lookupPair (l ++ [(n, v)]) n = some v := by
  induction l with
  | nil => simp [lookupPair]
  | cons hd t ih =>
    obtain ⟨k, v'⟩ := hd
    by_cases hk : k = n
    · simp [lookupPair, hk] at h
    · simp [lookupPair, hk] at h ⊢
      exact ih h

/-- Every character produced by `digitChar` is a decimal digit. -/
theorem digitChar_mem (n : Nat) :
    digitChar n ∈ ['0', '1', '2', '3', '4', '5', '6', '7', '8', '9'] := by
  unfold digitChar
  split <;> simp

theorem mem_natDigitsPadded {c : Char} {d n : Nat}
    (h : c ∈ natDigitsPadded d n) :
    c ∈ ['0', '1', '2', '3', '4', '5', '6', '7', '8', '9'] := by
  induction d generalizing n with
  | zero => simp [natDigitsPadded] at h
  | succ d ih =>
    simp only [natDigitsPadded, List.mem_append, List.mem_singleton] at h
    rcases h with h | h
    · exact ih h
    · exact h ▸ digitChar_mem n

theorem mem_natChars {c : Char} {fuel n : Nat} (h : c ∈ natChars fuel n) :
    c ∈ ['0', '1', '2', '3', '4', '5', '6', '7', '8', '9'] := by
  induction fuel generalizing n with
  | zero => simp [natChars] at h
  | succ fuel ih =>
    simp only [natChars] at h
    split at h
    · simp only [List.mem_singleton] at h
      exact h ▸ digitChar_mem n
    · simp only [List.mem_append, List.mem_singleton] at h
      rcases h with h | h
      · exact ih h
      · exact h ▸ digitChar_mem n

theorem length_natDigitsPadded (d n : Nat) : (natDigitsPadded d n).length = d := by
  induction d generalizing n with
  | zero => rfl
  | succ d ih => simp [natDigitsPadded, ih]

theorem data_append (a b : String) : (a ++ b).data = a.data ++ b.data := rfl

theorem takeWhile_append_of_all {p : Char → Bool} {l₁ : List Char}
    (l₂ : List Char) (h : ∀ c ∈ l₁, p c = true) :
    (l₁ ++ l₂).takeWhile p = l₁ ++ l₂.takeWhile p := by
  induction l₁ with
  | nil => rfl
  | cons hd t ih =>
    have hh := h hd (by simp)
    simp only [List.cons_append, List.takeWhile_cons, hh, if_true]
    rw [ih (fun c hc => h c (by simp [hc]))]

/-- `Wf` holds of the initial module state. -/
theorem wf_initial : Wf initialLoggingState := by decide

/-- A successful registration preserves `Wf`. -/
theorem wf_addLoggingLevel (st : LoggingState) (hwf : Wf st) (n : String)
    (num : Int) (mn : Option String) :
    Wf (addLoggingLevel st n num mn).2 := by
  unfold addLoggingLevel
  dsimp only
  split
  · exact hwf
  split
  · exact hwf
  split
  · exact hwf
  intro m hm
  simp only [registeredNames, List.map_cons, List.mem_cons] at hm ⊢
  rcases hm with hm | hm
  · exact Or.inl hm
  · right; right
    apply hwf
    simp only [registeredNames]
    obtain ⟨p, hp, rfl⟩ := List.mem_map.1 hm
    exact List.mem_map_of_mem _ (List.mem_of_mem_filter hp)

theorem nameToLevel_ensureLogger (st : LoggingState) (n : String) :
    (ensureLogger st n).nameToLevel = st.nameToLevel := by
  unfold ensureLogger
  split <;> rfl

theorem nameToLevel_updateLogger (st : LoggingState) (n : String)
    (f : Logger → Logger) : (updateLogger st n f).nameToLevel = st.nameToLevel := rfl

theorem lookupLevel_congr {st st' : LoggingState} (s : String)
    (h : st.nameToLevel = st'.nameToLevel) : lookupLevel st s = lookupLevel st' s := by
  unfold lookupLevel
  rw [h]

theorem registeredNames_congr {st st' : LoggingState}
    (h : st.nameToLevel = st'.nameToLevel) : registeredNames st = registeredNames st' := by
  unfold registeredNames
  rw [h]

theorem lookupLogger_ensureLogger_self (st : LoggingState) (n : String) :
    lookupLogger (ensureLogger st n) n =
      some ((lookupLogger st n).getD { level := 0, handlers := [] }) := by
  unfold ensureLogger lookupLogger
  cases h : lookupPair st.loggers n with
  | some v => simp [h]
  | none => simp [h, lookupPair_append_fresh _ _ _ h]

theorem lookupLogger_updateLogger_self (st : LoggingState) (n : String)
    (f : Logger → Logger) :
    lookupLogger (updateLogger st n f) n = (lookupLogger st n).map f := by
  unfold updateLogger lookupLogger
  exact lookupPair_updatePair f st.loggers n

/-- One successful `create_logger` call with an explicit filename and no log
directory: it returns the logger name, the registry is untouched, the
filesystem's directories are untouched, and the named logger now has the
requested threshold and its previous handlers followed by one fresh
`FileHandler` and one fresh terminal handler. -/
theorem create_logger_none_dir_spec (st : LoggingState) (fs : Fs) (now : String)
    (name lvl f : String) (r : Int)
    (hu : strUpper lvl ∈ registeredNames st)
    (hl : lookupLevel st lvl = some r)
    (hcwd : [] ∈ fs.dirs) (hnd : [f] ∉ fs.dirs) :
    (create_logger st fs now none (some f) name lvl).1 = .ok name ∧
    lookupLogger (create_logger st fs now none (some f) name lvl).2.1 name =
      some { level := r,
             handlers := ((lookupLogger st name).getD { level := 0, handlers := [] }).handlers ++
               [{ kind := .file [f], level := 0, output := [] },
                { kind := .stream, level := 0, output := [] }] } ∧
    (create_logger st fs now none (some f) name lvl).2.1.nameToLevel = st.nameToLevel ∧
    (create_logger st fs now none (some f) name lvl).2.2.dirs = fs.dirs := by
  have hopen : openAppend fs [f] =
      .ok (if [f] ∈ fs.files then fs else { fs with files := [f] :: fs.files }) := by
    unfold openAppend
    have hdl : ([f] : Path).dropLast = ([] : Path) := rfl
    rw [hdl, if_neg (by simp [hcwd]), if_neg hnd]
    split <;> simp_all
  have hl1 : lookupLevel (ensureLogger st name) lvl = some r := by
    rw [lookupLevel_congr lvl (nameToLevel_ensureLogger st name)]
    exact hl
  unfold create_logger
  rw [if_neg (by simp [hu])]
  simp only [resolveLogPath, hopen, hl1]
  refine ⟨by simp, ?_, ?_, ?_⟩
  · rw [lookupLogger_updateLogger_self, lookupLogger_updateLogger_self,
        lookupLogger_updateLogger_self, lookupLogger_ensureLogger_self]
    simp [List.append_assoc]
  · rw [nameToLevel_updateLogger, nameToLevel_updateLogger,
        nameToLevel_updateLogger, nameToLevel_ensureLogger]
  · split <;> rfl

/-! ## Claim C1 -/

/-- C1: for every level name already registered in the severity registry, a
second `addLoggingLevel` call with that same name (any method name) fails
with `DuplicateLevelName`, and the module state — the (name, rank) registry,
the module-level attributes, and the logger-class methods — is exactly the
state from before the failed call. -/
theorem addLoggingLevel_duplicate_fails_state_unchanged
    (st : LoggingState) (hwf : Wf st) (name : String) (num : Int)
    (mn : Option String) (hreg : name ∈ registeredNames st) :
    addLoggingLevel st name num mn = (.error .DuplicateLevelName, st) := by
  have hattr : name ∈ st.moduleAttrs := hwf name hreg
  unfold addLoggingLevel
  dsimp only
  simp [hattr]

/-- Witness for C1: registering `TRACE` at rank 5 succeeds from the initial
state, and a second registration of `TRACE` fails with `DuplicateLevelName`
leaving the state untouched. -/
theorem addLoggingLevel_duplicate_fails_state_unchanged_witness :
    (addLoggingLevel initialLoggingState "TRACE" 5 none).1 = .ok () ∧
    addLoggingLevel (addLoggingLevel initialLoggingState "TRACE" 5 none).2 "TRACE" 5 none
      = (.error .DuplicateLevelName, (addLoggingLevel initialLoggingState "TRACE" 5 none).2) :=
  ⟨rfl,
   addLoggingLevel_duplicate_fails_state_unchanged _
     (wf_addLoggingLevel _ wf_initial _ _ _) "TRACE" 5 none (by decide)⟩

/-! ## Claim C2 -/

/-- Is a handler the file sink? -/
def isFileSink (h : Handler) : Bool :=
  match h.kind with
  | .file _ => true
  | .stream => false

/-- Is a handler the terminal sink? -/
def isStreamSink (h : Handler) : Bool :=
  match h.kind with
  | .file _ => false
  | .stream => true

/-- A concrete filesystem containing only the working directory. -/
def fsCwd : Fs := { dirs := [[]], files := [] }

/-- First concrete `create_logger` call of the repeated-name scenario. -/
def c2Call1 : Except CreateError String × LoggingState × Fs :=
  create_logger initialLoggingState fsCwd "t1" none (some "a.log") "AppLogger" "WARNING"

/-- Second concrete `create_logger` call, same logger name, different level. -/
def c2Call2 : Except CreateError String × LoggingState × Fs :=
  create_logger c2Call1.2.1 c2Call1.2.2 "t2" none (some "b.log") "AppLogger" "ERROR"

/-- C2 counterexample: after two successful `create_logger` calls with the
same `logger_name` ("AppLogger") and different levels, the shared logger
holds the second threshold but has TWO file sinks and TWO terminal sinks —
not "exactly one FileSink and one TerminalSink" as the claim states, because
each call appends a fresh pair of handlers to the same logger. -/
theorem create_logger_repeat_one_sink_each_cex :
    c2Call1.1 = .ok "AppLogger" ∧
    c2Call2.1 = .ok "AppLogger" ∧
    (lookupLogger c2Call2.2.1 "AppLogger").map Logger.level = some 40 ∧
    (lookupLogger c2Call2.2.1 "AppLogger").map
      (fun l => ((l.handlers.filter isFileSink).length,
                 (l.handlers.filter isStreamSink).length)) = some (2, 2) ∧
    ¬ (lookupLogger c2Call2.2.1 "AppLogger").map
      (fun l => ((l.handlers.filter isFileSink).length,
                 (l.handlers.filter isStreamSink).length)) = some (1, 1) :=
  ⟨rfl, rfl, by decide, by decide, by decide⟩

/-- C2 (amended): two successful calls to `create_logger` with the same
`logger_name` and no log directory act on the same underlying registered
logger; the second call's threshold is the active one; and each call appends
one `FileHandler` and one terminal handler, so the shared logger ends with
two file sinks and two terminal sinks (the "exactly one of each" of the
claim holds only after the first construction). -/
theorem create_logger_repeat_threshold_wins_sinks_accumulate
    (st st1 : LoggingState) (fs fs1 : Fs)
    (now1 now2 name lvl1 lvl2 f1 f2 : String) (r1 r2 : Int)
    (hfresh : lookupLogger st name = none)
    (hu1 : strUpper lvl1 ∈ registeredNames st)
    (hu2 : strUpper lvl2 ∈ registeredNames st)
    (hl1 : lookupLevel st lvl1 = some r1)
    (hl2 : lookupLevel st lvl2 = some r2)
    (hcwd : [] ∈ fs.dirs) (hnd1 : [f1] ∉ fs.dirs) (hnd2 : [f2] ∉ fs.dirs)
    (hc1 : create_logger st fs now1 none (some f1) name lvl1 = (.ok name, st1, fs1)) :
    lookupLogger st1 name =
      some { level := r1,
             handlers := [{ kind := .file [f1], level := 0, output := [] },
                          { kind := .stream, level := 0, output := [] }] } ∧
    (create_logger st1 fs1 now2 none (some f2) name lvl2).1 = .ok name ∧
    lookupLogger (create_logger st1 fs1 now2 none (some f2) name lvl2).2.1 name =
      some { level := r2,
             handlers := [{ kind := .file [f1], level := 0, output := [] },
                          { kind := .stream, level := 0, output := [] },
                          { kind := .file [f2], level := 0, output := [] },
                          { kind := .stream, level := 0, output := [] }] } := by
  obtain ⟨h1ok, h1look, h1ntl, h1dirs⟩ :=
    create_logger_none_dir_spec st fs now1 name lvl1 f1 r1 hu1 hl1 hcwd hnd1
  rw [hc1] at h1look h1ntl h1dirs
  rw [hfresh] at h1look
  simp only [Option.getD_none, List.nil_append] at h1look
  have hntl : st1.nameToLevel = st.nameToLevel := h1ntl
  have hu2' : strUpper lvl2 ∈ registeredNames st1 := by
    rw [registeredNames_congr hntl]
    exact hu2
  have hl2' : lookupLevel st1 lvl2 = some r2 := (lookupLevel_congr lvl2 hntl).trans hl2
  have hcwd' : [] ∈ fs1.dirs := by rw [h1dirs]; exact hcwd
  have hnd2' : [f2] ∉ fs1.dirs := by rw [h1dirs]; exact hnd2
  obtain ⟨h2ok, h2look, h2ntl, h2dirs⟩ :=
    create_logger_none_dir_spec st1 fs1 now2 name lvl2 f2 r2 hu2' hl2' hcwd' hnd2'
  refine ⟨h1look, h2ok, ?_⟩
  rw [h2look, h1look]
  rfl

/-- Witness for C2 (amended), at the concrete two-call scenario. -/
theorem create_logger_repeat_threshold_wins_sinks_accumulate_witness :
    lookupLogger c2Call1.2.1 "AppLogger" =
      some { level := 30,
             handlers := [{ kind := .file ["a.log"], level := 0, output := [] },
                          { kind := .stream, level := 0, output := [] }] } ∧
    (create_logger c2Call1.2.1 c2Call1.2.2 "t2" none (some "b.log") "AppLogger" "ERROR").1
      = .ok "AppLogger" ∧
    lookupLogger (create_logger c2Call1.2.1 c2Call1.2.2 "t2" none (some "b.log")
        "AppLogger" "ERROR").2.1 "AppLogger" =
      some { level := 40,
             handlers := [{ kind := .file ["a.log"], level := 0, output := [] },
                          { kind := .stream, level := 0, output := [] },
                          { kind := .file ["b.log"], level := 0, output := [] },
                          { kind := .stream, level := 0, output := [] }] } :=
  create_logger_repeat_threshold_wins_sinks_accumulate
    initialLoggingState c2Call1.2.1 fsCwd c2Call1.2.2
    "t1" "t2" "AppLogger" "WARNING" "ERROR" "a.log" "b.log" 30 40
    rfl (by decide) (by decide) rfl rfl (by decide) (by decide) (by decide) rfl

/-! ## Claim C3 -/

/-- C3: a record whose rank is below the logger's (effective) threshold — or
blocked by `manager.disable = 0` — produces no output in any sink, and a
record at or above the threshold is handed to every attached handler, each
of which (their own levels being the pass-everything 0) appends exactly one
formatted line; the threshold test happens once, at the logger. -/
theorem logRecord_threshold_once_at_logger
    (st : LoggingState) (n : String) (l : Logger) (levelNum : Int) (msg : String)
    (hlook : lookupLogger st n = some l) :
    (levelNum ≤ 0 ∨ levelNum < effectiveLevel l → logRecord st n levelNum msg = st) ∧
    (0 < levelNum → effectiveLevel l ≤ levelNum →
      lookupLogger (logRecord st n levelNum msg) n =
        some { l with handlers := l.handlers.map (emitHandler levelNum msg) } ∧
      ∀ h ∈ l.handlers, h.level ≤ levelNum →
        (emitHandler levelNum msg h).output = h.output ++ [(levelNum, msg)]) := by
  constructor
  · intro hbelow
    have hdis : isEnabledFor l levelNum = false := by
      unfold isEnabledFor
      by_cases hle : levelNum ≤ 0
      · simp [hle]
      · rcases hbelow with hb | hb
        · exact absurd hb hle
        · simp only [hle, if_false, decide_eq_false_iff_not, not_le]
          exact hb
    unfold logRecord
    simp [hlook, hdis]
  · intro hpos habove
    have hen : isEnabledFor l levelNum = true := by
      unfold isEnabledFor
      rw [if_neg (by omega)]
      exact decide_eq_true habove
    constructor
    · unfold logRecord
      simp [hlook, hen, lookupLogger_updateLogger_self]
    · intro h _ hhl
      unfold emitHandler
      rw [if_pos hhl]

/-- The concrete logger of the C3 scenario: built by `create_logger` with
`minimum_level = "WARNING"`. -/
def c3St : LoggingState :=
  (create_logger initialLoggingState fsCwd "t" none (some "c.log") "AppLogger" "WARNING").2.1

/-- Witness for C3: on the WARNING-threshold logger, an `info` (20) record
changes nothing, and an `error` (40) record puts exactly one formatted line
into each of the two sinks. -/
theorem logRecord_threshold_once_at_logger_witness :
    logRecord c3St "AppLogger" 20 "info message" = c3St ∧
    lookupLogger (logRecord c3St "AppLogger" 40 "error message") "AppLogger" =
      some { level := 30,
             handlers := [{ kind := .file ["c.log"], level := 0,
                            output := [(40, "error message")] },
                          { kind := .stream, level := 0,
                            output := [(40, "error message")] }] } := by
  constructor
  · exact (logRecord_threshold_once_at_logger c3St "AppLogger"
      { level := 30,
        handlers := [{ kind := .file ["c.log"], level := 0, output := [] },
                     { kind := .stream, level := 0, output := [] }] }
      20 "info message" (by decide)).1 (by decide)
  · have h := ((logRecord_threshold_once_at_logger c3St "AppLogger"
      { level := 30,
        handlers := [{ kind := .file ["c.log"], level := 0, output := [] },
                     { kind := .stream, level := 0, output := [] }] }
      40 "error message" (by decide)).2 (by decide) (by decide)).1
    exact h.trans (by decide)

/-! ## Claim C4 -/

/-- Once the level-name check passes, no later failure of `create_logger`
is reported as `InvalidLevelName`. -/
theorem create_logger_check_passes (st : LoggingState) (fs : Fs) (now : String)
    (log_dir : Option Path) (log_file : Option String) (name lvl : String)
    (hmem : strUpper lvl ∈ registeredNames st) :
    (create_logger st fs now log_dir log_file name lvl).1 ≠ .error .InvalidLevelName := by
  unfold create_logger
  rw [if_neg (by simp [hmem])]
  dsimp only
  split
  · simp
  split
  · simp
  split
  · simp
  · simp

/-- The module state with the mixed-case custom level "Trace" registered. -/
def c4St : LoggingState := (addLoggingLevel initialLoggingState "Trace" 5 none).2

/-- C4 counterexample: after the (successful) registration of the
mixed-case level name "Trace", the input "trace" does resolve to a
registered severity by case-insensitive match, yet `create_logger` fails
with `InvalidLevelName` — the code tests exact membership of the UPPERCASED
input, which is case-insensitive matching only over all-uppercase
registries. -/
theorem create_logger_case_insensitive_cex :
    (addLoggingLevel initialLoggingState "Trace" 5 none).1 = .ok () ∧
    "Trace" ∈ registeredNames c4St ∧
    (∃ n ∈ registeredNames c4St, strLower "trace" = strLower n) ∧
    (create_logger c4St fsCwd "t" none (some "a.log") "L" "trace").1
      = .error .InvalidLevelName :=
  ⟨rfl, by decide, ⟨"Trace", by decide, by decide⟩, rfl⟩

/-- C4 (amended): `create_logger` fails with `InvalidLevelName` if and only
if the UPPERCASED `minimum_level` is not among the names registered so far;
in particular every letter-case variant whose uppercasing equals a
registered name passes the level check. (This coincides with
case-insensitive resolution exactly when every registered name is
all-uppercase, which holds for the built-ins and the script's own custom
levels but not for every name `addLoggingLevel` accepts.) -/
theorem create_logger_invalid_level_iff_upper_not_registered
    (st : LoggingState) (fs : Fs) (now : String) (log_dir : Option Path)
    (log_file : Option String) (name lvl : String) :
    ((create_logger st fs now log_dir log_file name lvl).1 = .error .InvalidLevelName
      ↔ strUpper lvl ∉ registeredNames st) ∧
    (∀ n ∈ registeredNames st, strUpper lvl = n →
      (create_logger st fs now log_dir log_file name lvl).1 ≠ .error .InvalidLevelName) := by
  constructor
  · constructor
    · intro h hmem
      exact create_logger_check_passes st fs now log_dir log_file name lvl hmem h
    · intro hnot
      unfold create_logger
      rw [if_pos hnot]
  · intro n hn he
    exact create_logger_check_passes st fs now log_dir log_file name lvl (he ▸ hn)

/-- Witness for C4 (amended): "warning" in lower case passes the level
check of `create_logger` because its uppercasing is the registered name
"WARNING". -/
theorem create_logger_invalid_level_iff_upper_not_registered_witness :
    "WARNING" ∈ registeredNames initialLoggingState ∧
    strUpper "warning" = "WARNING" ∧
    (create_logger initialLoggingState fsCwd "t" none (some "a.log") "L" "warning").1
      ≠ .error .InvalidLevelName :=
  ⟨by decide, by decide,
   (create_logger_invalid_level_iff_upper_not_registered initialLoggingState fsCwd "t"
      none (some "a.log") "L" "warning").2 "WARNING" (by decide) (by decide)⟩

/-! ## Claim C5 -/

/-- C5: with `log_dir = None` the log-file path is the bare filename (a path
in the working directory); an existing `log_dir` is reused as-is; a missing
`log_dir` is created by single-level `os.mkdir`; and when the parent of
`log_dir` itself does not exist the creation — and `create_logger` with it —
fails with `DirectoryCreationError` (the `FileNotFoundError` of `os.mkdir`).
In the directory cases the file path is the directory joined with the
filename. -/
theorem resolveLogPath_directory_handling
    (st : LoggingState) (fs : Fs) (now : String) (d : Path) (lf name lvl : String) :
    resolveLogPath fs none lf = .ok ([lf], fs) ∧
    (d ∈ fs.dirs → resolveLogPath fs (some d) lf = .ok (d ++ [lf], fs)) ∧
    (d ∉ fs.dirs → d.dropLast ∈ fs.dirs → d ∉ fs.files →
      resolveLogPath fs (some d) lf
        = .ok (d ++ [lf], { fs with dirs := d :: fs.dirs })) ∧
    (d ∉ fs.dirs → d.dropLast ∉ fs.dirs →
      resolveLogPath fs (some d) lf = .error .notFound) ∧
    (strUpper lvl ∈ registeredNames st → d ∉ fs.dirs → d.dropLast ∉ fs.dirs →
      (create_logger st fs now (some d) (some lf) name lvl).1
        = .error (.DirectoryCreationError .notFound)) := by
  have h4 : d ∉ fs.dirs → d.dropLast ∉ fs.dirs →
      resolveLogPath fs (some d) lf = .error .notFound := by
    intro h1 h2
    simp [resolveLogPath, mkdir, h1, h2]
  refine ⟨rfl, ?_, ?_, h4, ?_⟩
  · intro h
    simp [resolveLogPath, h]
  · intro h1 h2 h3
    simp [resolveLogPath, mkdir, h1, h2, h3]
  · intro hm h1 h2
    unfold create_logger
    rw [if_neg (by simp [hm])]
    dsimp only
    rw [h4 h1 h2]

/-- Witness for C5: a missing single-level directory `log` is created and
joined with the filename; omitting the directory keeps the bare filename;
a directory whose parent is missing makes `create_logger` fail with
`DirectoryCreationError`. -/
theorem resolveLogPath_directory_handling_witness :
    resolveLogPath fsCwd none "f.log" = .ok (["f.log"], fsCwd) ∧
    resolveLogPath fsCwd (some ["log"]) "f.log"
      = .ok (["log", "f.log"], { fsCwd with dirs := [["log"], []] }) ∧
    (create_logger initialLoggingState fsCwd "t" (some ["sub", "dir"])
        (some "f.log") "L" "INFO").1 = .error (.DirectoryCreationError .notFound) :=
  ⟨(resolveLogPath_directory_handling initialLoggingState fsCwd "t" ["log"]
      "f.log" "L" "INFO").1,
   (resolveLogPath_directory_handling initialLoggingState fsCwd "t" ["log"]
      "f.log" "L" "INFO").2.2.1 (by decide) (by decide) (by decide),
   (resolveLogPath_directory_handling initialLoggingState fsCwd "t" ["sub", "dir"]
      "f.log" "L" "INFO").2.2.2.2 (by decide) (by decide) (by decide)⟩

/-! ## Claim C6 -/

theorem digit_bne_dot {c : Char}
    (h : c ∈ ['0', '1', '2', '3', '4', '5', '6', '7', '8', '9']) :
    (c != '.') = true := by
  fin_cases h <;> decide

theorem digit_ne_newline {c : Char}
    (h : c ∈ ['0', '1', '2', '3', '4', '5', '6', '7', '8', '9']) :
    c ≠ '\n' := by
  fin_cases h <;> decide

/-- The fixed-point rendering with `d > 0` fractional digits contains a
decimal point and has exactly `d` characters after its last decimal point. -/
theorem fracDigitCount_formatFixedNat (num den d : Nat) (hd : d ≠ 0) :
    '.' ∈ (formatFixedNat num den d).data ∧
    fracDigitCount (formatFixedNat num den d) = d := by
  unfold formatFixedNat
  rw [if_neg hd]
  have hdot : ("." : String).data = ['.'] := rfl
  have hall : ∀ c ∈ (natDigitsPadded d
      (roundHalfEvenDiv (num * 10 ^ d) den % 10 ^ d)).reverse, (c != '.') = true := by
    intro c hc
    rw [List.mem_reverse] at hc
    exact digit_bne_dot (mem_natDigitsPadded hc)
  constructor
  · rw [data_append, data_append, hdot]
    simp
  · unfold fracDigitCount
    rw [data_append, data_append, hdot]
    have hmk : (⟨natDigitsPadded d (roundHalfEvenDiv (num * 10 ^ d) den % 10 ^ d)⟩ :
        String).data = natDigitsPadded d (roundHalfEvenDiv (num * 10 ^ d) den % 10 ^ d) := rfl
    rw [hmk, List.reverse_append, List.reverse_append,
        takeWhile_append_of_all _ hall]
    simp [length_natDigitsPadded]

/-- C6: for `total > 0` and `current` in `0..total`, the rendered bar is
exactly `⌊bar_length * current / total⌋` fill characters followed by
`bar_length - filled` dashes (so it contains exactly those counts of each),
and the percent string has exactly `decimals` digits after its decimal
point. -/
theorem print_progressbar_bar_and_percent
    (iteration total length decimals : Nat) (fill : Char)
    (htot : 0 < total) (hle : iteration ≤ total) (hfill : fill ≠ '-')
    (hdec : 0 < decimals) :
    (progressBar iteration total length fill).data =
      List.replicate (length * iteration / total) fill ++
      List.replicate (length - length * iteration / total) '-' ∧
    (progressBar iteration total length fill).data.count fill
      = length * iteration / total ∧
    (progressBar iteration total length fill).data.count '-'
      = length - length * iteration / total ∧
    '.' ∈ (percentStr iteration total decimals).data ∧
    fracDigitCount (percentStr iteration total decimals) = decimals := by
  have hbar : (progressBar iteration total length fill).data =
      List.replicate (length * iteration / total) fill ++
      List.replicate (length - length * iteration / total) '-' := rfl
  obtain ⟨hdotmem, hfrac⟩ :=
    fracDigitCount_formatFixedNat (100 * iteration) total decimals (Nat.pos_iff_ne_zero.mp hdec)
  refine ⟨hbar, ?_, ?_, hdotmem, hfrac⟩
  · rw [hbar, List.count_append]
    simp [List.count_replicate, hfill]
    exact fun h => absurd h.symm hfill
  · rw [hbar, List.count_append]
    simp [List.count_replicate, (Ne.symm hfill)]
    exact fun h => absurd h hfill

/-- Witness for C6: at `current = 3`, `total = 7`, `bar_length = 10` the bar
holds `⌊10 * 3 / 7⌋ = 4` fill characters and 6 dashes, and the percent
string ("42.9") has exactly one digit after the decimal point. -/
theorem print_progressbar_bar_and_percent_witness :
    (progressBar 3 7 10 '#').data.count '#' = 4 ∧
    (progressBar 3 7 10 '#').data.count '-' = 6 ∧
    fracDigitCount (percentStr 3 7 1) = 1 :=
  ⟨(print_progressbar_bar_and_percent 3 7 10 1 '#'
      (by decide) (by decide) (by decide) (by decide)).2.1,
   (print_progressbar_bar_and_percent 3 7 10 1 '#'
      (by decide) (by decide) (by decide) (by decide)).2.2.1,
   (print_progressbar_bar_and_percent 3 7 10 1 '#'
      (by decide) (by decide) (by decide) (by decide)).2.2.2.2⟩

/-! ## Claim C7 -/

/-- C7 counterexample: with the empty prefix (and otherwise default-style
arguments) the text written is NOT `prefix + " |" + bar + "| " + percent +
"% " + suffix` — the source substitutes seventeen spaces for an empty
prefix, and wraps the payload in a leading carriage return and the
`printEnd` terminator. -/
theorem print_progressbar_exact_concat_cex :
    print_progressbar 1 2 "" "" 1 4 '#' "\r" ≠
      "" ++ " |" ++ progressBar 1 2 4 '#' ++ "| " ++ percentStr 1 2 1 ++ "% " ++ "" := by
  decide

/-- C7 (amended): for `total > 0`, `current` in `0..total` and a NONEMPTY
prefix, the text written to the terminal is the claimed concatenation
`prefix + " |" + bar + "| " + percent + "% " + suffix`, preceded by the
overwrite carriage return and followed by the `printEnd` terminator (plus
the completion newline when `current = total`); an empty prefix is first
replaced by seventeen spaces. -/
theorem print_progressbar_written_text
    (iteration total : Nat) (pfx sfx : String) (decimals length : Nat)
    (fill : Char) (printEnd : String)
    (htot : 0 < total) (hle : iteration ≤ total) (hpfx : 1 ≤ pfx.data.length) :
    print_progressbar iteration total pfx sfx decimals length fill printEnd =
      "\r" ++ (pfx ++ " |" ++ progressBar iteration total length fill ++ "| " ++
        percentStr iteration total decimals ++ "% " ++ sfx) ++ printEnd ++
      (if iteration = total then "\n" else "") := by
  unfold print_progressbar progressLine
  dsimp only
  rw [if_neg (by omega)]
  apply String.ext
  simp [data_append, List.append_assoc]

/-- Witness for C7 (amended), at `current = 1`, `total = 2`,
`prefix = "P"`, `suffix = "S"`. -/
theorem print_progressbar_written_text_witness :
    print_progressbar 1 2 "P" "S" 1 4 '#' "\r" =
      "\r" ++ ("P" ++ " |" ++ progressBar 1 2 4 '#' ++ "| " ++
        percentStr 1 2 1 ++ "% " ++ "S") ++ "\r" ++
      (if 1 = 2 then "\n" else "") :=
  print_progressbar_written_text 1 2 "P" "S" 1 4 '#' "\r"
    (by decide) (by decide) (by decide)

/-! ## Claim C8 -/

theorem newline_not_mem_natStr (n : Nat) : '\n' ∉ (natStr n).data := by
  intro h
  exact digit_ne_newline (mem_natChars h) rfl

theorem newline_not_mem_formatFixedNat (num den d : Nat) :
    '\n' ∉ (formatFixedNat num den d).data := by
  unfold formatFixedNat
  by_cases hd : d = 0
  · rw [if_pos hd]
    exact newline_not_mem_natStr _
  · rw [if_neg hd]
    intro h
    rw [data_append, data_append] at h
    rcases List.mem_append.1 h with h | h
    · rcases List.mem_append.1 h with h | h
      · exact newline_not_mem_natStr _ h
      · have hdot : ("." : String).data = ['.'] := rfl
        rw [hdot] at h
        exact absurd h (by decide)
    · exact digit_ne_newline (mem_natDigitsPadded h) rfl

/-- The line written by the progress bar contains no newline, provided the
prefix, suffix and fill character contain none. -/
theorem newline_not_mem_progressLine (iteration total : Nat) (pfx sfx : String)
    (decimals length : Nat) (fill : Char)
    (hnl1 : '\n' ∉ pfx.data) (hnl2 : '\n' ∉ sfx.data) (hfill : fill ≠ '\n') :
    '\n' ∉ (progressLine iteration total pfx sfx decimals length fill).data := by
  unfold progressLine
  dsimp only
  intro h
  simp only [data_append, List.mem_append] at h
  rcases h with (((((((h | h) | h) | h) | h) | h) | h) | h)
  · exact absurd h (by decide)
  · split at h
    · exact absurd h (by decide)
    · exact hnl1 h
  · exact absurd h (by decide)
  · have hb : (progressBar iteration total length fill).data =
        List.replicate (filledLength iteration total length) fill ++
        List.replicate (length - filledLength iteration total length) '-' := rfl
    rw [hb] at h
    rcases List.mem_append.1 h with h | h
    · exact hfill (List.eq_of_mem_replicate h).symm
    · exact absurd (List.eq_of_mem_replicate h) (by decide)
  · exact absurd h (by decide)
  · exact newline_not_mem_formatFixedNat (100 * iteration) total decimals h
  · exact absurd h (by decide)
  · exact hnl2 h

/-- C8: with the default `printEnd = "\r"`, the call at `current = total`
terminates its output with a newline, while a call with `current < total`
(and newline-free prefix, suffix and fill character) terminates with a
carriage return and writes no newline at all. -/
theorem print_progressbar_line_termination
    (iteration total : Nat) (pfx sfx : String) (decimals length : Nat) (fill : Char)
    (hnl1 : '\n' ∉ pfx.data) (hnl2 : '\n' ∉ sfx.data) (hfill : fill ≠ '\n') :
    (∃ l, (print_progressbar total total pfx sfx decimals length fill "\r").data
        = l ++ ['\n']) ∧
    (iteration < total →
      (∃ l, (print_progressbar iteration total pfx sfx decimals length fill "\r").data
          = l ++ ['\r']) ∧
      '\n' ∉ (print_progressbar iteration total pfx sfx decimals length fill "\r").data) := by
  constructor
  · refine ⟨(progressLine total total pfx sfx decimals length fill ++ "\r").data, ?_⟩
    unfold print_progressbar
    rw [if_pos rfl]
    rw [data_append]
  · intro hlt
    have hne : iteration ≠ total := Nat.ne_of_lt hlt
    constructor
    · refine ⟨(progressLine iteration total pfx sfx decimals length fill).data, ?_⟩
      unfold print_progressbar
      rw [if_neg hne]
      rw [data_append, data_append]
      simp
    · unfold print_progressbar
      rw [if_neg hne]
      intro h
      rw [data_append, data_append] at h
      rcases List.mem_append.1 h with h | h
      · rcases List.mem_append.1 h with h | h
        · exact newline_not_mem_progressLine iteration total pfx sfx decimals length
            fill hnl1 hnl2 hfill h
        · exact absurd h (by decide)
      · exact absurd h (by decide)

/-- Witness for C8: at `total = 2` the completed call ends with a newline,
and the `current = 1` call ends with a carriage return and contains no
newline. -/
theorem print_progressbar_line_termination_witness :
    (∃ l, (print_progressbar 2 2 "P" "S" 1 4 '#' "\r").data = l ++ ['\n']) ∧
    (∃ l, (print_progressbar 1 2 "P" "S" 1 4 '#' "\r").data = l ++ ['\r']) ∧
    '\n' ∉ (print_progressbar 1 2 "P" "S" 1 4 '#' "\r").data := by
  have h := print_progressbar_line_termination 1 2 "P" "S" 1 4 '#'
    (by decide) (by decide) (by decide)
  exact ⟨h.1, (h.2 (by decide)).1, (h.2 (by decide)).2⟩

/-! ## Claim C9 -/

theorem strLower_eq_empty_iff (s : String) : strLower s = "" ↔ s = "" := by
  constructor
  · intro h
    apply String.ext
    have h2 : s.data.map Char.toLower = [] := congrArg String.data h
    simpa using List.map_eq_nil_iff.mp h2
  · rintro rfl
    rfl

theorem qLoop_valid_first (qp : String) (dflt : Option Bool) (line : String)
    (rest : List String) (b : Bool) (hv : valid (strLower line) = some b) :
    qLoop qp dflt (line :: rest) = (some b, [qp], rest) := by
  conv_lhs => rw [qLoop]
  dsimp only
  have hne : ¬ (dflt.isSome = true ∧ strLower line = "") := by
    rintro ⟨-, he⟩
    rw [he] at hv
    simp [valid] at hv
  rw [if_neg hne]
  simp [hv]

theorem qLoop_empty_default (qp : String) (b : Bool) (rest : List String) :
    qLoop qp (some b) ("" :: rest) = (some b, [qp], rest) := rfl

theorem qLoop_invalid_first (qp : String) (dflt : Option Bool) (line : String)
    (rest : List String) (hv : valid (strLower line) = none)
    (hne : line ≠ "" ∨ dflt = none) :
    qLoop qp dflt (line :: rest) =
      ((qLoop qp dflt rest).1, qp :: hintMsg :: (qLoop qp dflt rest).2.1,
       (qLoop qp dflt rest).2.2) := by
  conv_lhs => rw [qLoop]
  dsimp only
  have hcond : ¬ (dflt.isSome = true ∧ strLower line = "") := by
    rintro ⟨hs, he⟩
    rcases hne with hl | hd
    · exact hl ((strLower_eq_empty_iff line).mp he)
    · rw [hd] at hs
      exact absurd hs (by decide)
  rw [if_neg hcond]
  simp [hv]

theorem qLoop_all_invalid (qp : String) (dflt : Option Bool) (inputs : List String)
    (hall : ∀ l ∈ inputs, valid (strLower l) = none ∧ (l ≠ "" ∨ dflt = none)) :
    (qLoop qp dflt inputs).1 = none := by
  induction inputs with
  | nil => rfl
  | cons line rest ih =>
    have h1 := hall line (by simp)
    rw [qLoop_invalid_first qp dflt line rest h1.1 h1.2]
    exact ih (fun l hl => hall l (by simp [hl]))

/-- For a validated default, `query_yes_no` is the loop run with the
corresponding prompt decoration and empty-input answer. -/
theorem query_eq_qLoop (q : String) (d : Option String)
    (hd : d = none ∨ d = some "yes" ∨ d = some "no") (inputs : List String) :
    query_yes_no q d inputs =
      (.ok (qLoop (q ++ promptOfD d) (defaultAns d) inputs).1,
       (qLoop (q ++ promptOfD d) (defaultAns d) inputs).2.1,
       (qLoop (q ++ promptOfD d) (defaultAns d) inputs).2.2) := by
  rcases hd with rfl | rfl | rfl <;> rfl

/-- C9: for each validated default and each read line, `query_yes_no`
case-insensitively maps the `valid` keys `yes/y/ye` to `true` and `no/n` to
`false` (consuming exactly that line and writing exactly one prompt); an
empty line returns the caller's default when one is given; any other line —
also the empty line when no default is given — writes the usage hint and
re-prompts on the remaining input; and when every supplied line is invalid
the loop never produces an answer. -/
theorem query_yes_no_maps_inputs (q : String) (d : Option String) (line : String)
    (rest inputs : List String)
    (hd : d = none ∨ d = some "yes" ∨ d = some "no") :
    (∀ b, valid (strLower line) = some b →
      query_yes_no q d (line :: rest) = (.ok (some b), [q ++ promptOfD d], rest)) ∧
    (line = "" → d ≠ none →
      query_yes_no q d (line :: rest) = (.ok (defaultAns d), [q ++ promptOfD d], rest)) ∧
    (valid (strLower line) = none → (line ≠ "" ∨ d = none) →
      query_yes_no q d (line :: rest) =
        ((query_yes_no q d rest).1,
         (q ++ promptOfD d) :: hintMsg :: (query_yes_no q d rest).2.1,
         (query_yes_no q d rest).2.2)) ∧
    ((∀ l ∈ inputs, valid (strLower l) = none ∧ (l ≠ "" ∨ d = none)) →
      (query_yes_no q d inputs).1 = .ok none) := by
  refine ⟨?_, ?_, ?_, ?_⟩
  · intro b hv
    rw [query_eq_qLoop q d hd, qLoop_valid_first _ _ _ _ _ hv]
  · intro hline hdne
    rcases hd with rfl | rfl | rfl
    · exact absurd rfl hdne
    · subst hline
      rw [query_eq_qLoop q (some "yes") (Or.inr (Or.inl rfl))]
      have hda : defaultAns (some "yes") = some true := rfl
      rw [hda, qLoop_empty_default]
    · subst hline
      rw [query_eq_qLoop q (some "no") (Or.inr (Or.inr rfl))]
      have hda : defaultAns (some "no") = some false := rfl
      rw [hda, qLoop_empty_default]
  · intro hv hne
    have hne' : line ≠ "" ∨ defaultAns d = none :=
      hne.imp id (fun h => by rw [h]; rfl)
    rw [query_eq_qLoop q d hd, query_eq_qLoop q d hd,
        qLoop_invalid_first _ _ _ _ hv hne']
  · intro hall
    rw [query_eq_qLoop q d hd]
    have hall' : ∀ l ∈ inputs, valid (strLower l) = none ∧ (l ≠ "" ∨ defaultAns d = none) :=
      fun l hl => ⟨(hall l hl).1, (hall l hl).2.imp id (fun h => by rw [h]; rfl)⟩
    rw [qLoop_all_invalid _ _ _ hall']

/-- Witness for C9: "N" answers false at once; an empty line returns the
default `yes`; "maybe" writes the usage hint and defers to the rest of the
input; a list of only invalid lines never produces an answer. -/
theorem query_yes_no_maps_inputs_witness :
    query_yes_no "Q" (some "yes") ["N"]
      = (.ok (some false), ["Q" ++ promptOfD (some "yes")], []) ∧
    query_yes_no "Q" (some "yes") [""]
      = (.ok (defaultAns (some "yes")), ["Q" ++ promptOfD (some "yes")], []) ∧
    query_yes_no "Q" (some "yes") ["maybe", "y"] =
      ((query_yes_no "Q" (some "yes") ["y"]).1,
       ("Q" ++ promptOfD (some "yes")) :: hintMsg ::
         (query_yes_no "Q" (some "yes") ["y"]).2.1,
       (query_yes_no "Q" (some "yes") ["y"]).2.2) ∧
    (query_yes_no "Q" none ["maybe", "x"]).1 = .ok none := by
  refine ⟨?_, ?_, ?_, ?_⟩
  · exact (query_yes_no_maps_inputs "Q" (some "yes") "N" [] []
      (Or.inr (Or.inl rfl))).1 false (by decide)
  · exact (query_yes_no_maps_inputs "Q" (some "yes") "" [] []
      (Or.inr (Or.inl rfl))).2.1 rfl (by simp)
  · exact (query_yes_no_maps_inputs "Q" (some "yes") "maybe" ["y"] []
      (Or.inr (Or.inl rfl))).2.2.1 (by decide) (Or.inl (by decide))
  · exact (query_yes_no_maps_inputs "Q" none "x" [] ["maybe", "x"]
      (Or.inl rfl)).2.2.2 (by decide)

/-! ## Claim C10 -/

/-- C10: every default other than `"yes"`, `"no"` or `None` makes
`query_yes_no` raise `ValueError` before any interaction: nothing is
written (no prompt) and the input stream is returned untouched (nothing is
consumed). -/
theorem query_yes_no_invalid_default_raises_before_io
    (q s : String) (inputs : List String) (h1 : s ≠ "yes") (h2 : s ≠ "no") :
    query_yes_no q (some s) inputs = (.error .invalidDefault, [], inputs) := by
  unfold query_yes_no
  split <;> simp_all

/-- Witness for C10: the default "maybe" raises `ValueError` with no output
written and the single input line left unread. -/
theorem query_yes_no_invalid_default_raises_before_io_witness :
    query_yes_no "Q" (some "maybe") ["y"] = (.error .invalidDefault, [], ["y"]) :=
  query_yes_no_invalid_default_raises_before_io "Q" "maybe" ["y"]
    (by decide) (by decide)

end TemplateScript
